import Mathlib

/-!
Verification of the backstage fragment: the `todo` plugin registrar
(`src/plugins/todo/src/plugin.ts`, first unit) and the `useTechDocsReaderDom`
hook (second unit of the same file).

The embedding is shallow:

* The anchor click handler passed to `addLinkClickListener` is embedded as a
  pure function `onClick` producing the ordered list of observable browser and
  framework actions it performs (analytics capture, `window.open`, in-app
  `navigate`, `scrollIntoView`).
* The render effect (the `useEffect` holding `shouldReplaceContent`) is
  embedded as a small event machine over two effect executions: starting an
  effect, running its cleanup, the synchronous part of its `.then` callback
  (empty `innerHTML` check, `shouldReplaceContent` check, `window.scroll`,
  the `postRender` call), and — as a separate event, because
  `await postRender` suspends the callback — the continuation that calls
  `setDom`.  The flag is not re-read after the await in the source, and the
  machine preserves that: a cleanup can intervene between the check and the
  `setDom`.
* `updateFooterWidth` and its two call sites (the window resize listener and
  the state/style-loading effect) are embedded over an abstract DOM state.
* The two transformer lists of `preRender` and `postRender` are embedded as
  lists of named steps applied sequentially.
* The plugin descriptor is embedded structurally.
-/

namespace Backstage

/-! ## JavaScript string helpers -/

/-- One step of `String.prototype.replace(search, "")` with a string search
pattern: remove the first occurrence of `pat`, scanning left to right.
Mirrors `url.replace(window.location.origin, "")` in the click handler. -/
def removeFirstAux (pat : List Char) : List Char → List Char
  | [] => []
  | c :: rest =>
    if pat.isPrefixOf (c :: rest) then (c :: rest).drop pat.length
    else c :: removeFirstAux pat rest

/-- JavaScript `s.replace(pat, "")` for a string pattern: removes the first
occurrence of `pat` from `s` (no change when `pat` does not occur). -/
def jsReplaceEmpty (s pat : String) : String :=
  String.mk (removeFirstAux pat.data s.data)

/-- JavaScript `s.slice(1)`: drop the first character.  Used for
`parsedUrl.hash.slice(1)`. -/
def jsSlice1 (s : String) : String :=
  String.mk (s.data.drop 1)

/-! ## Click handler (`addLinkClickListener` onClick, plugin.ts lines 180-209) -/

/-- The fields of the browser `MouseEvent` the handler reads:
`ctrlKey`, `metaKey`, and `(event.target as HTMLAnchorElement)?.innerText`
(`none` models an absent target). -/
structure ClickEvent where
  ctrlKey : Bool
  metaKey : Bool
  targetInnerText : Option String

/-- Browser context of the handler: `window.location.origin`, the `hash` of
`new URL(url)` (`""` when the URL carries no fragment, otherwise starting
with `#`), and whether `transformedElement` contains an element with a given
id (the `querySelector` with an `[id="..."]` selector). -/
structure ClickEnv where
  origin : String
  urlHash : String
  hasElementWithId : String → Bool

/-- Observable actions the click handler can perform, in program order. -/
inductive ClickAction where
  | captureEvent (name label toAttr : String)
  | windowOpen (url target : String)
  | navigate (url : String)
  | scrollIntoView (id : String)
  deriving DecidableEq, Repr

def ClickAction.isCapture : ClickAction → Bool
  | .captureEvent _ _ _ => true
  | _ => false

def ClickAction.isOpen : ClickAction → Bool
  | .windowOpen _ _ => true
  | _ => false

def ClickAction.isNavigate : ClickAction → Bool
  | .navigate _ => true
  | _ => false

def ClickAction.isScroll : ClickAction → Bool
  | .scrollIntoView _ => true
  | _ => false

/-- `(event.target as HTMLAnchorElement | undefined)?.innerText || url`:
the link text, falling back to the URL when the target is absent or its
text is falsy (empty). -/
def linkTextOf (event : ClickEvent) (url : String) : String :=
  match event.targetInnerText with
  | some t => if t = "" then url else t
  | none => url

/-- The `onClick` callback given to `addLinkClickListener`
(plugin.ts lines 180-209), as the ordered list of actions it performs:
always one analytics capture, then either `window.open` (modifier key held)
or `navigate` (plus a conditional `scrollIntoView` when the URL has a hash
and a matching element exists). -/
def onClick (env : ClickEnv) (event : ClickEvent) (url : String) :
    List ClickAction :=
  let modifierActive := event.ctrlKey || event.metaKey
  let linkText := linkTextOf event url
  let toValue := jsReplaceEmpty url env.origin
  ClickAction.captureEvent "click" linkText toValue ::
    (if env.urlHash ≠ "" then
      if modifierActive then [ClickAction.windowOpen url "_blank"]
      else
        ClickAction.navigate url ::
          (if env.hasElementWithId (jsSlice1 env.urlHash) then
            [ClickAction.scrollIntoView (jsSlice1 env.urlHash)]
          else [])
    else
      if modifierActive then [ClickAction.windowOpen url "_blank"]
      else [ClickAction.navigate url])

/-! ## Render effect machine (plugin.ts lines 224-255)

The `useEffect` keyed on `[rawPage, path, preRender, postRender]` is modelled
for two consecutive executions (render requests R1 and R2).  Each execution
`i` owns a `shouldReplaceContent` flag (`flag1`, `flag2`); React runs the
cleanup of execution 1 (which sets `flag1 := false`) before execution 2
starts.  The `.then` callback of execution `i` is `async` and awaits
`postRender`, so it contributes two events: `check i`, its synchronous part
up to the `postRender` call (parameterised by the `innerHTML` of the
pre-transformed element, `h1` and `h2`), and `mount i`, the continuation
after the await, which calls `setDom` without re-reading the flag. -/

/-- Observable actions of the effect body, in program order:
`window.scroll including top 0`, the `postRender` call of run `i`, and the
`setDom` call of run `i`. -/
inductive RenderAct where
  | scrollTop
  | runPostRender (run : Nat)
  | setDom (run : Nat)
  deriving DecidableEq, Repr

/-- Machine state: the two `shouldReplaceContent` flags; `passed1` and
`passed2` record that run `i`s callback got past both early returns and is
suspended at `await postRender` (so its `setDom` continuation is pending);
the mounted `dom` state variable (`some i` when run `i`s result is mounted);
and the trace of actions performed so far. -/
structure RenderSt where
  flag1 : Bool
  flag2 : Bool
  passed1 : Bool
  passed2 : Bool
  dom : Option Nat
  acts : List RenderAct
  deriving DecidableEq, Repr

/-- Events: effect execution `i` starts (its flag is initialised to `true`);
the cleanup of execution 1 runs (React runs it before execution 2 starts);
`check i` is the synchronous part of execution `i`s `.then` callback
(plugin.ts lines 232-245: empty check, flag check, scroll, `postRender`
call); `mount i` is the continuation after `await postRender` resolves
(plugin.ts line 248), which calls `setDom` without re-reading the flag. -/
inductive RenderEv where
  | start1
  | cleanup1
  | start2
  | check1
  | check2
  | mount1
  | mount2
  deriving DecidableEq, Repr

/-- One machine step.  `check i` mirrors plugin.ts lines 232-245: return
early when `innerHTML` is empty, return early when the flag was cleared,
otherwise scroll to top and start the post-render (the callback then
suspends at the await, recorded by `passed i`).  `mount i` mirrors line 248:
when run `i` passed its checks, `setDom` runs unconditionally — the flag is
not re-read after the await. -/
def renderStep (h1 h2 : String) (s : RenderSt) : RenderEv → RenderSt
  | .start1 => { s with flag1 := true }
  | .cleanup1 => { s with flag1 := false }
  | .start2 => { s with flag2 := true }
  | .check1 =>
    if h1 = "" then s
    else if s.flag1 then
      { s with passed1 := true
               acts := s.acts ++ [RenderAct.scrollTop, RenderAct.runPostRender 1] }
    else s
  | .check2 =>
    if h2 = "" then s
    else if s.flag2 then
      { s with passed2 := true
               acts := s.acts ++ [RenderAct.scrollTop, RenderAct.runPostRender 2] }
    else s
  | .mount1 =>
    if s.passed1 then
      { s with dom := some 1, acts := s.acts ++ [RenderAct.setDom 1] }
    else s
  | .mount2 =>
    if s.passed2 then
      { s with dom := some 2, acts := s.acts ++ [RenderAct.setDom 2] }
    else s

/-- Run the machine over a schedule of events. -/
def renderRun (h1 h2 : String) (tr : List RenderEv) (s : RenderSt) : RenderSt :=
  tr.foldl (renderStep h1 h2) s

def renderInit : RenderSt :=
  { flag1 := false, flag2 := false, passed1 := false, passed2 := false
    dom := none, acts := [] }

/-! ## Footer width (plugin.ts lines 121-142) -/

/-- The slice of the mounted subtree the footer logic reads: the
`style.width` of the `.md-footer` element (`none` when `querySelector`
finds no footer) and `dom.getBoundingClientRect().width` (in pixels,
modelled as a natural number). -/
structure MountedDom where
  footerStyleWidth : Option String
  boundingWidth : Nat
  deriving DecidableEq, Repr

/-- The hook state the two footer effects read: the `dom` state variable and
`isStyleLoading` from `useShadowDomStylesLoading(dom)`. -/
structure HookState where
  dom : Option MountedDom
  isStyleLoading : Bool
  deriving DecidableEq, Repr

/-- `updateFooterWidth` (plugin.ts lines 121-127): return if `dom` is null;
otherwise, if a `.md-footer` element exists, set its width style to the
bounding-box width suffixed with `px`. -/
def updateFooterWidth (s : HookState) : HookState :=
  match s.dom with
  | none => s
  | some d =>
    match d.footerStyleWidth with
    | none => s
    | some _ =>
      { s with
        dom := some
          { d with footerStyleWidth := some (toString d.boundingWidth ++ "px") } }

/-- The window `resize` listener (plugin.ts lines 129-134) calls
`updateFooterWidth` unconditionally. -/
def onWindowResize (s : HookState) : HookState :=
  updateFooterWidth s

/-- The effect keyed on `[state, isStyleLoading, updateFooterWidth]`
(plugin.ts lines 137-142): call `updateFooterWidth` only when styles are not
loading. -/
def onStateOrStyleLoadingChange (s : HookState) : HookState :=
  if s.isStyleLoading then s else updateFooterWidth s

/-! ## Transformer pipeline (plugin.ts lines 145-222 and 231-249) -/

/-- The eight pre-render transformers, named after the list literal in
`preRender` (plugin.ts lines 147-160). -/
inductive PreStep where
  | sanitize
  | addBaseUrl
  | rewriteDocLinks
  | addSidebarToggle
  | removeMkdocsHeader
  | simplifyMkdocsFooter
  | addGitFeedbackLink
  | applyStyles
  deriving DecidableEq, Repr

/-- The five post-render transformers, named after the list literal in
`postRender` (plugin.ts lines 174-220). -/
inductive PostStep where
  | scrollIntoAnchor
  | scrollIntoNavigation
  | copyToClipboard
  | addLinkClickListener
  | onCssReady
  deriving DecidableEq, Repr

/-- Modelled from the spec: the `transform` helper imported from
`../../transformers` is not part of the source fragment; per the spec it
applies the transformer list sequentially, each step receiving the output of
the previous step. -/
def transform {α : Type} (x : α) (ts : List (α → α)) : α :=
  ts.foldl (fun acc t => t acc) x

/-- The transformer list of `preRender`, in source order. -/
def preRenderSteps : List PreStep :=
  [PreStep.sanitize, PreStep.addBaseUrl, PreStep.rewriteDocLinks,
   PreStep.addSidebarToggle, PreStep.removeMkdocsHeader,
   PreStep.simplifyMkdocsFooter, PreStep.addGitFeedbackLink,
   PreStep.applyStyles]

/-- The transformer list of `postRender`, in source order. -/
def postRenderSteps : List PostStep :=
  [PostStep.scrollIntoAnchor, PostStep.scrollIntoNavigation,
   PostStep.copyToClipboard, PostStep.addLinkClickListener,
   PostStep.onCssReady]

/-- `preRender` (plugin.ts lines 145-169): apply the eight pre-render
transformers to the raw content.  `interp` gives the meaning of each named
transformer (their implementations live outside this fragment). -/
def preRender {α : Type} (interp : PreStep → α → α) (rawContent : α) : α :=
  transform rawContent (preRenderSteps.map interp)

/-- `postRender` (plugin.ts lines 172-222): apply the five post-render
transformers to the element added to the DOM. -/
def postRender {α : Type} (interp : PostStep → α → α) (element : α) : α :=
  transform element (postRenderSteps.map interp)

/-- A step of the whole per-request pipeline, tagged by phase. -/
inductive PipelineStep where
  | pre (s : PreStep)
  | post (s : PostStep)
  deriving DecidableEq, Repr

def PipelineStep.isPre : PipelineStep → Bool
  | .pre _ => true
  | .post _ => false

/-- The per-request pipeline of the render effect (plugin.ts lines 231-249):
`preRender(rawPage, path).then(... await postRender(...) ...)` — every
pre-render step, then every post-render step. -/
def renderPipelineSteps : List PipelineStep :=
  preRenderSteps.map PipelineStep.pre ++ postRenderSteps.map PipelineStep.post

/-! ## Plugin descriptor (plugin.ts lines 25-47) -/

/-- Modelled from the spec: `TodoClient` from `./api` is not part of the
source fragment; it is the opaque client object satisfying the todo-fetching
interface.  Construction takes no arguments and cannot fail. -/
structure TodoClient where
  deriving DecidableEq, Repr

/-- Modelled from the spec: `todoApiRef` from `./api` is not part of the
source fragment; it is the name of the single exposed capability. -/
inductive ApiRefId where
  | todoApiRef
  deriving DecidableEq, Repr

/-- Modelled from the spec: `rootRouteRef` from `./routes` is not part of the
source fragment; it is the declared root route slot. -/
inductive RouteRef where
  | rootRouteRef
  deriving DecidableEq, Repr

/-- The configuration accepted by `createApiFactory`: the capability
reference, its dependency map (empty here), and the factory function. -/
structure ApiFactoryConfig where
  api : ApiRefId
  deps : List String
  factory : Unit → TodoClient

/-- The configuration accepted by `createPlugin`: id, API factories, and the
named route map. -/
structure PluginDescriptor where
  id : String
  apis : List ApiFactoryConfig
  routes : List (String × RouteRef)

/-- Modelled from the spec: `createApiFactory` from the host framework is not
part of the source fragment; it packages the given configuration. -/
def createApiFactory (c : ApiFactoryConfig) : ApiFactoryConfig := c

/-- Modelled from the spec: `createPlugin` from the host framework is not
part of the source fragment; it registers and returns the descriptor as
given, and cannot fail. -/
def createPlugin (c : PluginDescriptor) : PluginDescriptor := c

/-- A routable UI extension: what `createRoutableExtension` declares, reduced
to the field the claims are about (its mount point). -/
structure RoutableExtension where
  mountPoint : RouteRef
  deriving DecidableEq, Repr

/-- Modelled from the spec: `createRoutableExtension` from the host framework
is not part of the source fragment; it declares an extension mounted at the
given route slot. -/
def createRoutableExtension (mountPoint : RouteRef) : RoutableExtension :=
  { mountPoint := mountPoint }

/-- Modelled from the spec: `plugin.provide` from the host framework is not
part of the source fragment; it attaches the extension to the plugin and
returns it. -/
def providePlugin (_plugin : PluginDescriptor) (e : RoutableExtension) :
    RoutableExtension := e

/-- `todoPlugin` (plugin.ts lines 25-39). -/
def todoPlugin : PluginDescriptor :=
  createPlugin
    { id := "todo"
      apis :=
        [createApiFactory
          { api := ApiRefId.todoApiRef
            deps := []
            factory := fun _ => TodoClient.mk }]
      routes := [("root", RouteRef.rootRouteRef)] }

/-- `EntityTodoContent` (plugin.ts lines 41-47). -/
def EntityTodoContent : RoutableExtension :=
  providePlugin todoPlugin (createRoutableExtension RouteRef.rootRouteRef)

/-! ## Concrete inputs used by the witnesses -/

def clickEnvNoHash : ClickEnv :=
  { origin := "http://example.com"
    urlHash := ""
    hasElementWithId := fun _ => false }

def clickEnvHash : ClickEnv :=
  { origin := "http://example.com"
    urlHash := "#install"
    hasElementWithId := fun i => i == "install" }

def clickEvPlain : ClickEvent :=
  { ctrlKey := false, metaKey := false, targetInnerText := some "Docs" }

def footerStateLoaded : HookState :=
  { dom := some { footerStyleWidth := some "100px", boundingWidth := 250 }
    isStyleLoading := false }

def footerStateLoading : HookState :=
  { dom := some { footerStyleWidth := some "100px", boundingWidth := 250 }
    isStyleLoading := true }

def renderStateMounted : RenderSt :=
  { flag1 := true, flag2 := false, passed1 := false, passed2 := false
    dom := some 2, acts := [RenderAct.setDom 2] }

def renderStateActive : RenderSt :=
  { flag1 := true, flag2 := false, passed1 := false, passed2 := false
    dom := none, acts := [] }

/-! ## Helper lemmas -/

theorem isPrefixOf_append_self : ∀ (l r : List Char), l.isPrefixOf (l ++ r) = true
  | [], _ => by simp [List.isPrefixOf]
  | c :: cs, r => by
    simp [List.isPrefixOf, isPrefixOf_append_self cs r]

theorem string_ne_empty_data {s : String} (h : s ≠ "") : s.data ≠ [] := by
  intro hd
  apply h
  cases s with
  | mk d =>
    have hd' : d = [] := hd
    subst hd'
    rfl

theorem removeFirstAux_append (pat rest : List Char) (h : pat ≠ []) :
    removeFirstAux pat (pat ++ rest) = rest := by
  cases pat with
  | nil => exact absurd rfl h
  | cons p ps =>
    have hpre := isPrefixOf_append_self (p :: ps) rest
    simp only [List.cons_append] at hpre ⊢
    rw [removeFirstAux, hpre]
    simp [List.drop_left ps rest]

theorem jsReplaceEmpty_append (origin rest : String) (h : origin ≠ "") :
    jsReplaceEmpty (origin ++ rest) origin = rest := by
  unfold jsReplaceEmpty
  rw [String.data_append, removeFirstAux_append _ _ (string_ne_empty_data h)]

theorem jsSlice1_hash (s : String) : jsSlice1 ("#" ++ s) = s := by
  have hd : ("#" ++ s).data = '#' :: s.data := by
    rw [String.data_append]
    rfl
  unfold jsSlice1
  rw [hd]
  rfl

theorem hash_append_ne_empty (s : String) : ("#" ++ s) ≠ "" := by
  intro h
  have hd : ("#" ++ s).data = [] := by rw [h]
  rw [String.data_append] at hd
  simp at hd

/-! ## Claim theorems: click handler -/

/-- C5: every anchor click, regardless of modifier-key state and fragment
presence, emits exactly one analytics click event; its label is the visible
link text, falling back to the URL when the text is absent or empty, and its
`to` attribute is the URL with the current window origin stripped. -/
theorem click_analytics_exactly_once (env : ClickEnv) (event : ClickEvent)
    (rest : String) (hor : env.origin ≠ "") :
    (onClick env event (env.origin ++ rest)).filter ClickAction.isCapture
      = [ClickAction.captureEvent "click"
          (linkTextOf event (env.origin ++ rest)) rest] ∧
    linkTextOf event (env.origin ++ rest)
      = if event.targetInnerText = none ∨ event.targetInnerText = some ""
        then env.origin ++ rest
        else event.targetInnerText.getD (env.origin ++ rest) := by
  constructor
  · simp only [onClick, jsReplaceEmpty_append _ _ hor]
    split
    · split <;> simp [ClickAction.isCapture]
    · split <;> simp [ClickAction.isCapture]
  · rcases event with ⟨c, m, _ | t⟩
    · simp [linkTextOf]
    · by_cases ht : t = "" <;> simp [linkTextOf, ht]

theorem click_analytics_exactly_once_witness :
    (onClick clickEnvNoHash clickEvPlain
        (clickEnvNoHash.origin ++ "/docs/page")).filter ClickAction.isCapture
      = [ClickAction.captureEvent "click"
          (linkTextOf clickEvPlain (clickEnvNoHash.origin ++ "/docs/page"))
          "/docs/page"] ∧
    linkTextOf clickEvPlain (clickEnvNoHash.origin ++ "/docs/page")
      = if clickEvPlain.targetInnerText = none ∨
            clickEvPlain.targetInnerText = some ""
        then clickEnvNoHash.origin ++ "/docs/page"
        else clickEvPlain.targetInnerText.getD
            (clickEnvNoHash.origin ++ "/docs/page") :=
  click_analytics_exactly_once clickEnvNoHash clickEvPlain "/docs/page"
    (by decide)

/-- C4: on a click whose URL carries a fragment and whose target section
exists in the rendered element, the handler with no modifier key navigates
in-app with the full URL and scrolls the section element into view (and does
not open a new tab); with control or meta held it opens the URL in a new tab
and never navigates in-app. -/
theorem click_fragment_navigation (env : ClickEnv) (event : ClickEvent)
    (url sectionId : String)
    (hhash : env.urlHash = "#" ++ sectionId)
    (hid : env.hasElementWithId sectionId = true) :
    (event.ctrlKey = false → event.metaKey = false →
      (onClick env event url).filter ClickAction.isNavigate
          = [ClickAction.navigate url] ∧
      (onClick env event url).filter ClickAction.isScroll
          = [ClickAction.scrollIntoView sectionId] ∧
      (onClick env event url).filter ClickAction.isOpen = []) ∧
    ((event.ctrlKey = true ∨ event.metaKey = true) →
      (onClick env event url).filter ClickAction.isOpen
          = [ClickAction.windowOpen url "_blank"] ∧
      (onClick env event url).filter ClickAction.isNavigate = []) := by
  constructor
  · intro hc hm
    simp [onClick, hhash, jsSlice1_hash, hash_append_ne_empty, hid, hc, hm,
      ClickAction.isNavigate, ClickAction.isScroll, ClickAction.isOpen,
      ClickAction.isCapture]
  · intro hmod
    rcases hmod with h | h <;>
      simp [onClick, hhash, jsSlice1_hash, hash_append_ne_empty, hid, h,
        ClickAction.isNavigate, ClickAction.isOpen, ClickAction.isCapture]

theorem click_fragment_navigation_witness :
    (clickEvPlain.ctrlKey = false → clickEvPlain.metaKey = false →
      (onClick clickEnvHash clickEvPlain
          "http://example.com/docs/#install").filter ClickAction.isNavigate
          = [ClickAction.navigate "http://example.com/docs/#install"] ∧
      (onClick clickEnvHash clickEvPlain
          "http://example.com/docs/#install").filter ClickAction.isScroll
          = [ClickAction.scrollIntoView "install"] ∧
      (onClick clickEnvHash clickEvPlain
          "http://example.com/docs/#install").filter ClickAction.isOpen
          = []) ∧
    ((clickEvPlain.ctrlKey = true ∨ clickEvPlain.metaKey = true) →
      (onClick clickEnvHash clickEvPlain
          "http://example.com/docs/#install").filter ClickAction.isOpen
          = [ClickAction.windowOpen "http://example.com/docs/#install"
              "_blank"] ∧
      (onClick clickEnvHash clickEvPlain
          "http://example.com/docs/#install").filter ClickAction.isNavigate
          = []) :=
  click_fragment_navigation clickEnvHash clickEvPlain
    "http://example.com/docs/#install" "install" (by decide) (by decide)

/-- C6: on a click whose URL has no fragment and with no modifier key held,
the handler performs in-app navigation only: no `scrollIntoView` is
attempted and `window.open` is not called. -/
theorem click_no_fragment_navigation (env : ClickEnv) (event : ClickEvent)
    (url : String)
    (hhash : env.urlHash = "")
    (hc : event.ctrlKey = false) (hm : event.metaKey = false) :
    (onClick env event url).filter ClickAction.isNavigate
        = [ClickAction.navigate url] ∧
    (onClick env event url).filter ClickAction.isScroll = [] ∧
    (onClick env event url).filter ClickAction.isOpen = [] := by
  simp [onClick, hhash, hc, hm, ClickAction.isNavigate, ClickAction.isScroll,
    ClickAction.isOpen, ClickAction.isCapture]

theorem click_no_fragment_navigation_witness :
    (onClick clickEnvNoHash clickEvPlain
        "http://example.com/about").filter ClickAction.isNavigate
        = [ClickAction.navigate "http://example.com/about"] ∧
    (onClick clickEnvNoHash clickEvPlain
        "http://example.com/about").filter ClickAction.isScroll = [] ∧
    (onClick clickEnvNoHash clickEvPlain
        "http://example.com/about").filter ClickAction.isOpen = [] :=
  click_no_fragment_navigation clickEnvNoHash clickEvPlain
    "http://example.com/about" (by decide) (by decide) (by decide)

/-! ## Render effect machine lemmas -/

theorem renderRun_append (h1 h2 : String) (x y : List RenderEv) (s : RenderSt) :
    renderRun h1 h2 (x ++ y) s = renderRun h1 h2 y (renderRun h1 h2 x s) :=
  List.foldl_append _ _ x y

theorem renderRun_cons (h1 h2 : String) (e : RenderEv) (l : List RenderEv)
    (s : RenderSt) :
    renderRun h1 h2 (e :: l) s = renderRun h1 h2 l (renderStep h1 h2 s e) := rfl

theorem renderStep_flag2_mono (h1 h2 : String) (s : RenderSt) (e : RenderEv)
    (h : s.flag2 = true) : (renderStep h1 h2 s e).flag2 = true := by
  cases e
  case start1 => exact h
  case cleanup1 => exact h
  case start2 => rfl
  case check1 =>
    by_cases hh : h1 = ""
    · simp [renderStep, hh, h]
    · by_cases hfl : s.flag1 = true
      · simp [renderStep, hh, hfl, h]
      · simp [renderStep, hh, hfl, h]
  case check2 =>
    by_cases hh : h2 = ""
    · simp [renderStep, hh, h]
    · simp [renderStep, hh, h]
  case mount1 =>
    by_cases hp : s.passed1 = true
    · simp [renderStep, hp, h]
    · simp [renderStep, hp, h]
  case mount2 =>
    by_cases hp : s.passed2 = true
    · simp [renderStep, hp, h]
    · simp [renderStep, hp, h]

theorem renderRun_flag2_mono (h1 h2 : String) :
    ∀ (l : List RenderEv) (s : RenderSt), s.flag2 = true →
      (renderRun h1 h2 l s).flag2 = true
  | [], _, h => h
  | e :: l, s, h =>
    renderRun_flag2_mono h1 h2 l (renderStep h1 h2 s e)
      (renderStep_flag2_mono h1 h2 s e h)

theorem renderStep_passed2_mono (h1 h2 : String) (s : RenderSt) (e : RenderEv)
    (h : s.passed2 = true) : (renderStep h1 h2 s e).passed2 = true := by
  cases e
  case start1 => exact h
  case cleanup1 => exact h
  case start2 => exact h
  case check1 =>
    by_cases hh : h1 = ""
    · simp [renderStep, hh, h]
    · by_cases hfl : s.flag1 = true
      · simp [renderStep, hh, hfl, h]
      · simp [renderStep, hh, hfl, h]
  case check2 =>
    by_cases hh : h2 = ""
    · simp [renderStep, hh, h]
    · by_cases hfl : s.flag2 = true
      · simp [renderStep, hh, hfl]
      · simp [renderStep, hh, hfl, h]
  case mount1 =>
    by_cases hp : s.passed1 = true
    · simp [renderStep, hp, h]
    · simp [renderStep, hp, h]
  case mount2 =>
    by_cases hp : s.passed2 = true
    · simp [renderStep, hp, h]
    · exact absurd h hp

theorem renderRun_passed2_mono (h1 h2 : String) :
    ∀ (l : List RenderEv) (s : RenderSt), s.passed2 = true →
      (renderRun h1 h2 l s).passed2 = true
  | [], _, h => h
  | e :: l, s, h =>
    renderRun_passed2_mono h1 h2 l (renderStep h1 h2 s e)
      (renderStep_passed2_mono h1 h2 s e h)

theorem renderStep_acts_mono (h1 h2 : String) (s : RenderSt) (e : RenderEv)
    (a : RenderAct) (h : a ∈ s.acts) : a ∈ (renderStep h1 h2 s e).acts := by
  cases e
  case start1 => exact h
  case cleanup1 => exact h
  case start2 => exact h
  case check1 =>
    simp only [renderStep]
    split
    · exact h
    · split
      · exact List.mem_append_left _ h
      · exact h
  case check2 =>
    simp only [renderStep]
    split
    · exact h
    · split
      · exact List.mem_append_left _ h
      · exact h
  case mount1 =>
    simp only [renderStep]
    split
    · exact List.mem_append_left _ h
    · exact h
  case mount2 =>
    simp only [renderStep]
    split
    · exact List.mem_append_left _ h
    · exact h

theorem renderRun_acts_mono (h1 h2 : String) :
    ∀ (l : List RenderEv) (s : RenderSt) (a : RenderAct), a ∈ s.acts →
      a ∈ (renderRun h1 h2 l s).acts
  | [], _, _, h => h
  | e :: l, s, a, h =>
    renderRun_acts_mono h1 h2 l (renderStep h1 h2 s e) a
      (renderStep_acts_mono h1 h2 s e a h)

theorem renderStep_inv (h1 h2 : String) (s : RenderSt) (e : RenderEv)
    (hne : e ≠ RenderEv.start1) (hf : s.flag1 = false)
    (hp : s.passed1 = false) :
    (renderStep h1 h2 s e).flag1 = false ∧
    (renderStep h1 h2 s e).passed1 = false ∧
    (RenderAct.setDom 1 ∈ (renderStep h1 h2 s e).acts ↔
      RenderAct.setDom 1 ∈ s.acts) ∧
    (s.dom = some 2 → (renderStep h1 h2 s e).dom = some 2) := by
  cases e
  case start1 => exact absurd rfl hne
  case cleanup1 => exact ⟨rfl, hp, Iff.rfl, fun h => h⟩
  case start2 => exact ⟨hf, hp, Iff.rfl, fun h => h⟩
  case check1 =>
    have heq : renderStep h1 h2 s RenderEv.check1 = s := by
      simp [renderStep, hf]
    rw [heq]
    exact ⟨hf, hp, Iff.rfl, fun h => h⟩
  case check2 =>
    simp only [renderStep]
    split
    · exact ⟨hf, hp, Iff.rfl, fun h => h⟩
    · split
      · refine ⟨hf, hp, ?_, fun h => h⟩
        simp
      · exact ⟨hf, hp, Iff.rfl, fun h => h⟩
  case mount1 =>
    have heq : renderStep h1 h2 s RenderEv.mount1 = s := by
      simp [renderStep, hp]
    rw [heq]
    exact ⟨hf, hp, Iff.rfl, fun h => h⟩
  case mount2 =>
    simp only [renderStep]
    split
    · refine ⟨hf, hp, ?_, fun _ => rfl⟩
      simp
    · exact ⟨hf, hp, Iff.rfl, fun h => h⟩

theorem renderRun_inv (h1 h2 : String) :
    ∀ (l : List RenderEv) (s : RenderSt), RenderEv.start1 ∉ l →
      s.flag1 = false → s.passed1 = false →
      (renderRun h1 h2 l s).flag1 = false ∧
      (renderRun h1 h2 l s).passed1 = false ∧
      (RenderAct.setDom 1 ∈ (renderRun h1 h2 l s).acts ↔
        RenderAct.setDom 1 ∈ s.acts) ∧
      (s.dom = some 2 → (renderRun h1 h2 l s).dom = some 2)
  | [], _, _, hf, hp => ⟨hf, hp, Iff.rfl, fun h => h⟩
  | e :: l, s, hnm, hf, hp => by
    have hne : e ≠ RenderEv.start1 := by
      intro h
      exact hnm (by rw [← h]; exact List.mem_cons_self e l)
    have hnl : RenderEv.start1 ∉ l := fun h => hnm (List.mem_cons_of_mem e h)
    obtain ⟨f1, p1, m1, d1⟩ := renderStep_inv h1 h2 s e hne hf hp
    obtain ⟨f2, p2, m2, d2⟩ :=
      renderRun_inv h1 h2 l (renderStep h1 h2 s e) hnl f1 p1
    exact ⟨f2, p2, m2.trans m1, fun h => d2 (d1 h)⟩

theorem renderRun_start_cleanup_start (h1 h2 : String) :
    renderRun h1 h2
        [RenderEv.start1, RenderEv.cleanup1, RenderEv.start2] renderInit
      = { flag1 := false, flag2 := true, passed1 := false, passed2 := false
          dom := none, acts := [] } := rfl

/-! ## Claim theorems: render effect -/

/-- C1 counterexample: the claim quantifies over every schedule where the R2
effect begins before R1 mounts.  When R2 begins while R1 is suspended at
`await postRender` — after the R1 commit check passed but before the R1
`setDom`, so R1 has not yet mounted and the schedule is inside the claim's
scope — the R1 continuation still calls `setDom`, because the flag is not
re-read after the await: here the R1 result is mounted, and mounted last, so
the claim as stated is false on the code. -/
theorem render_last_request_wins_counterexample :
    (renderRun "page one" "page two"
        [RenderEv.start1, RenderEv.check1, RenderEv.cleanup1,
         RenderEv.start2, RenderEv.check2, RenderEv.mount2, RenderEv.mount1]
        renderInit).dom = some 1 ∧
    RenderAct.setDom 1 ∈ (renderRun "page one" "page two"
        [RenderEv.start1, RenderEv.check1, RenderEv.cleanup1,
         RenderEv.start2, RenderEv.check2, RenderEv.mount2, RenderEv.mount1]
        renderInit).acts := by
  decide

/-- C1 (amended): for two render requests R1 then R2 where the R2 effect
execution begins (after the R1 cleanup, per React) before the R1 run reaches
its still-current commit check, only the R2 result is ever mounted: the R1
flag is false from the cleanup on, the R1 commit check fails, the R1 run
never calls `setDom`, and the final mounted dom is the R2 result — even when
the R1 callback fires after R2 starts.  The schedule after the cleanup and
the R2 start is arbitrary apart from containing the R2 check and, later, the
R2 mount; the R1 check and mount events may sit anywhere in it. -/
theorem render_last_request_wins (h1 h2 : String) (l1 l2 l3 : List RenderEv)
    (hne : h2 ≠ "")
    (hstart : RenderEv.start1 ∉
      l1 ++ (RenderEv.check2 :: (l2 ++ (RenderEv.mount2 :: l3)))) :
    (renderRun h1 h2
        ([RenderEv.start1, RenderEv.cleanup1, RenderEv.start2] ++
          (l1 ++ (RenderEv.check2 :: (l2 ++ (RenderEv.mount2 :: l3)))))
        renderInit).dom = some 2 ∧
    (renderRun h1 h2
        ([RenderEv.start1, RenderEv.cleanup1, RenderEv.start2] ++
          (l1 ++ (RenderEv.check2 :: (l2 ++ (RenderEv.mount2 :: l3)))))
        renderInit).flag1 = false ∧
    RenderAct.setDom 1 ∉ (renderRun h1 h2
        ([RenderEv.start1, RenderEv.cleanup1, RenderEv.start2] ++
          (l1 ++ (RenderEv.check2 :: (l2 ++ (RenderEv.mount2 :: l3)))))
        renderInit).acts ∧
    RenderAct.setDom 2 ∈ (renderRun h1 h2
        ([RenderEv.start1, RenderEv.cleanup1, RenderEv.start2] ++
          (l1 ++ (RenderEv.check2 :: (l2 ++ (RenderEv.mount2 :: l3)))))
        renderInit).acts := by
  simp only [List.mem_append, List.mem_cons] at hstart
  push_neg at hstart
  obtain ⟨hs1, -, hs2, -, hs3⟩ := hstart
  rw [renderRun_append, renderRun_start_cleanup_start, renderRun_append,
    renderRun_cons, renderRun_append, renderRun_cons]
  set s0 : RenderSt :=
    { flag1 := false, flag2 := true, passed1 := false, passed2 := false
      dom := none, acts := [] } with hs0
  set sA := renderRun h1 h2 l1 s0 with hsA
  obtain ⟨hAf1, hAp1, hAm, -⟩ := renderRun_inv h1 h2 l1 s0 hs1 rfl rfl
  rw [← hsA] at hAf1 hAp1 hAm
  have hAnm : RenderAct.setDom 1 ∉ sA.acts := by
    rw [hAm]
    simp [hs0]
  have hAf2 : sA.flag2 = true := renderRun_flag2_mono h1 h2 l1 s0 rfl
  have hB : renderStep h1 h2 sA RenderEv.check2
      = { sA with
          passed2 := true
          acts := sA.acts ++
            [RenderAct.scrollTop, RenderAct.runPostRender 2] } := by
    simp [renderStep, hne, hAf2]
  rw [hB]
  set sB : RenderSt :=
    { sA with
      passed2 := true
      acts := sA.acts ++ [RenderAct.scrollTop, RenderAct.runPostRender 2] }
    with hsB
  have hBnm : RenderAct.setDom 1 ∉ sB.acts := by
    simp [hsB, hAnm]
  set sC := renderRun h1 h2 l2 sB with hsC
  obtain ⟨hCf1, hCp1, hCm, -⟩ := renderRun_inv h1 h2 l2 sB hs2 hAf1 hAp1
  rw [← hsC] at hCf1 hCp1 hCm
  have hCnm : RenderAct.setDom 1 ∉ sC.acts := by
    rw [hCm]
    exact hBnm
  have hCp2 : sC.passed2 = true := renderRun_passed2_mono h1 h2 l2 sB rfl
  have hD : renderStep h1 h2 sC RenderEv.mount2
      = { sC with dom := some 2, acts := sC.acts ++ [RenderAct.setDom 2] } := by
    simp [renderStep, hCp2]
  rw [hD]
  set sD : RenderSt :=
    { sC with dom := some 2, acts := sC.acts ++ [RenderAct.setDom 2] }
    with hsD
  have hDnm : RenderAct.setDom 1 ∉ sD.acts := by
    simp [hsD, hCnm]
  have hDm2 : RenderAct.setDom 2 ∈ sD.acts := by
    simp [hsD]
  obtain ⟨hEf1, -, hEm, hEd⟩ := renderRun_inv h1 h2 l3 sD hs3 hCf1 hCp1
  refine ⟨hEd rfl, hEf1, ?_, ?_⟩
  · rw [hEm]
    exact hDnm
  · exact renderRun_acts_mono h1 h2 l3 sD _ hDm2

theorem render_last_request_wins_witness :
    (renderRun "page one" "page two"
        ([RenderEv.start1, RenderEv.cleanup1, RenderEv.start2] ++
          ([] ++ (RenderEv.check2 :: ([RenderEv.check1] ++
            (RenderEv.mount2 :: [RenderEv.mount1])))))
        renderInit).dom = some 2 ∧
    (renderRun "page one" "page two"
        ([RenderEv.start1, RenderEv.cleanup1, RenderEv.start2] ++
          ([] ++ (RenderEv.check2 :: ([RenderEv.check1] ++
            (RenderEv.mount2 :: [RenderEv.mount1])))))
        renderInit).flag1 = false ∧
    RenderAct.setDom 1 ∉ (renderRun "page one" "page two"
        ([RenderEv.start1, RenderEv.cleanup1, RenderEv.start2] ++
          ([] ++ (RenderEv.check2 :: ([RenderEv.check1] ++
            (RenderEv.mount2 :: [RenderEv.mount1])))))
        renderInit).acts ∧
    RenderAct.setDom 2 ∈ (renderRun "page one" "page two"
        ([RenderEv.start1, RenderEv.cleanup1, RenderEv.start2] ++
          ([] ++ (RenderEv.check2 :: ([RenderEv.check1] ++
            (RenderEv.mount2 :: [RenderEv.mount1])))))
        renderInit).acts :=
  render_last_request_wins "page one" "page two"
    [] [RenderEv.check1] [RenderEv.mount1]
    (by decide) (by decide)

/-- C2: when the pre-render output has empty (falsy) `innerHTML`, the run is
a silent no-op: the synchronous part of the callback returns before the flag
check, the scroll and the `postRender` call, leaving the state unchanged —
and since the run never passes its checks, its `setDom` continuation never
fires either, so the previously mounted dom is preserved. -/
theorem render_empty_content_noop (h1 h2 : String) (s : RenderSt)
    (h : h1 = "") :
    renderStep h1 h2 s RenderEv.check1 = s ∧
    (s.passed1 = false → renderStep h1 h2 s RenderEv.mount1 = s) := by
  constructor
  · simp [renderStep, h]
  · intro hp
    simp [renderStep, hp]

theorem render_empty_content_noop_witness :
    renderStep "" "page two" renderStateMounted RenderEv.check1
      = renderStateMounted ∧
    (renderStateMounted.passed1 = false →
      renderStep "" "page two" renderStateMounted RenderEv.mount1
        = renderStateMounted) :=
  render_empty_content_noop "" "page two" renderStateMounted rfl

/-- C10: a committing run (non-empty pre-render output, flag still true)
scrolls the window to the top right after the commit check and before the
post-render transforms start; the `setDom` call follows only in the
continuation after the post-render, so the trace order is scroll, then
post-render, then `setDom`. -/
theorem render_commit_scrolls_top_first (h1 h2 : String) (s : RenderSt)
    (hne : h1 ≠ "") (hf : s.flag1 = true) :
    (renderStep h1 h2 s RenderEv.check1).acts
      = s.acts ++ [RenderAct.scrollTop, RenderAct.runPostRender 1] ∧
    (renderStep h1 h2 s RenderEv.check1).passed1 = true ∧
    (renderStep h1 h2 (renderStep h1 h2 s RenderEv.check1)
        RenderEv.mount1).acts
      = s.acts ++ [RenderAct.scrollTop, RenderAct.runPostRender 1,
          RenderAct.setDom 1] := by
  have hc : renderStep h1 h2 s RenderEv.check1
      = { s with
          passed1 := true
          acts := s.acts ++
            [RenderAct.scrollTop, RenderAct.runPostRender 1] } := by
    simp [renderStep, hne, hf]
  refine ⟨by rw [hc], by rw [hc], ?_⟩
  rw [hc]
  simp [renderStep]

theorem render_commit_scrolls_top_first_witness :
    (renderStep "page one" "" renderStateActive RenderEv.check1).acts
      = renderStateActive.acts ++ [RenderAct.scrollTop,
          RenderAct.runPostRender 1] ∧
    (renderStep "page one" "" renderStateActive RenderEv.check1).passed1
      = true ∧
    (renderStep "page one" ""
        (renderStep "page one" "" renderStateActive RenderEv.check1)
        RenderEv.mount1).acts
      = renderStateActive.acts ++ [RenderAct.scrollTop,
          RenderAct.runPostRender 1, RenderAct.setDom 1] :=
  render_commit_scrolls_top_first "page one" "" renderStateActive
    (by decide) rfl

/-! ## Claim theorems: footer width -/

/-- C3 counterexample: a window resize that arrives while styles are still
loading does recompute the footer width (the resize listener calls
`updateFooterWidth` unconditionally), contradicting the claim that no
recomputation happens on resize during style loading. -/
theorem footer_resize_during_loading_counterexample :
    footerStateLoading.isStyleLoading = true ∧
    onWindowResize footerStateLoading ≠ footerStateLoading := by
  decide

/-- C3 amended: a window resize while a subtree with a footer element is
mounted always sets the footer width style to the bounding-box width in
pixels, regardless of the style-loading state; the style-loading guard
belongs to the separate effect that runs on reader-state or style-loading
changes, which recomputes only when styles are not loading. -/
theorem footer_width_update (s : HookState) (d : MountedDom) (w : String)
    (hdom : s.dom = some d) (hfoot : d.footerStyleWidth = some w) :
    (onWindowResize s).dom
      = some { d with
          footerStyleWidth := some (toString d.boundingWidth ++ "px") } ∧
    (s.isStyleLoading = false →
      onStateOrStyleLoadingChange s = onWindowResize s) ∧
    (s.isStyleLoading = true → onStateOrStyleLoadingChange s = s) := by
  refine ⟨?_, ?_, ?_⟩
  · simp [onWindowResize, updateFooterWidth, hdom, hfoot]
  · intro h
    simp [onStateOrStyleLoadingChange, onWindowResize, h]
  · intro h
    simp [onStateOrStyleLoadingChange, h]

theorem footer_width_update_witness :
    (onWindowResize footerStateLoaded).dom
      = some { footerStyleWidth := some (toString 250 ++ "px")
               boundingWidth := 250 } ∧
    (footerStateLoaded.isStyleLoading = false →
      onStateOrStyleLoadingChange footerStateLoaded
        = onWindowResize footerStateLoaded) ∧
    (footerStateLoaded.isStyleLoading = true →
      onStateOrStyleLoadingChange footerStateLoaded = footerStateLoaded) :=
  footer_width_update footerStateLoaded
    { footerStyleWidth := some "100px", boundingWidth := 250 } "100px" rfl rfl

/-! ## Claim theorems: transformer pipeline -/

/-- C7: the pre-render stage applies exactly eight transforms in the fixed
source order — sanitize, add base URL, rewrite doc links, add sidebar
toggle, remove MkDocs header, simplify MkDocs footer, add Git feedback link,
apply styles — each step receiving the output of the previous one. -/
theorem preRender_eight_transforms {α : Type} (interp : PreStep → α → α)
    (raw : α) :
    preRenderSteps.length = 8 ∧
    preRenderSteps = [PreStep.sanitize, PreStep.addBaseUrl,
      PreStep.rewriteDocLinks, PreStep.addSidebarToggle,
      PreStep.removeMkdocsHeader, PreStep.simplifyMkdocsFooter,
      PreStep.addGitFeedbackLink, PreStep.applyStyles] ∧
    preRender interp raw
      = interp PreStep.applyStyles (interp PreStep.addGitFeedbackLink
          (interp PreStep.simplifyMkdocsFooter
            (interp PreStep.removeMkdocsHeader
              (interp PreStep.addSidebarToggle
                (interp PreStep.rewriteDocLinks
                  (interp PreStep.addBaseUrl
                    (interp PreStep.sanitize raw))))))) :=
  ⟨rfl, rfl, rfl⟩

/-- C8: the per-request pipeline runs every pre-render transform before any
post-render transform, and the post-render transforms run sequentially in
the fixed declared order: scroll into anchor, scroll into navigation,
copy-to-clipboard binding, link-click-listener attachment, CSS-ready drawer
disabling. -/
theorem render_pipeline_ordering {α : Type} (interp : PostStep → α → α)
    (element : α) :
    renderPipelineSteps.takeWhile PipelineStep.isPre
        = preRenderSteps.map PipelineStep.pre ∧
    renderPipelineSteps.dropWhile PipelineStep.isPre
        = postRenderSteps.map PipelineStep.post ∧
    postRenderSteps = [PostStep.scrollIntoAnchor, PostStep.scrollIntoNavigation,
      PostStep.copyToClipboard, PostStep.addLinkClickListener,
      PostStep.onCssReady] ∧
    postRender interp element
      = interp PostStep.onCssReady (interp PostStep.addLinkClickListener
          (interp PostStep.copyToClipboard
            (interp PostStep.scrollIntoNavigation
              (interp PostStep.scrollIntoAnchor element)))) :=
  ⟨rfl, rfl, rfl, rfl⟩

/-! ## Claim theorems: plugin descriptor -/

/-- C9: the plugin descriptor has id `todo`, registers exactly one API
factory — with no dependencies, constructing a new `TodoClient` — and maps
exactly the named root route; the single routable extension is mounted at
the declared root route.  Construction is a total function and cannot
fail. -/
theorem todoPlugin_descriptor :
    todoPlugin.id = "todo" ∧
    todoPlugin.apis.length = 1 ∧
    todoPlugin.apis.map ApiFactoryConfig.api = [ApiRefId.todoApiRef] ∧
    todoPlugin.apis.map ApiFactoryConfig.deps = [[]] ∧
    todoPlugin.apis.map (fun f => f.factory ()) = [TodoClient.mk] ∧
    todoPlugin.routes = [("root", RouteRef.rootRouteRef)] ∧
    EntityTodoContent.mountPoint = RouteRef.rootRouteRef :=
  ⟨rfl, rfl, rfl, rfl, rfl, rfl, rfl⟩

end Backstage
